import Mathlib

/-!
# GeoHunt progress/unlock engine — verification development

Shallow embedding of the progress/unlock core of the GeoHunt campus
treasure-hunt application, translated from its JavaScript/TypeScript source:

* `src/backend/src/models/UserProgress.js` — the per-player progress record,
  `calculateLevel` and `checkBadges`;
* `src/backend/src/controllers/progressController.js` — `getProgress`,
  `unlockTreasure`;
* the admin controller's `resetUserProgress`;
* the frontend map component — `calculateDistance` (haversine),
  `getDistanceTo`, `isNear`, the QR scan classification in `scanQRCode`,
  and the XP status-bar computation `xpProgress`.

Treasure identifiers (Mongo ObjectIds in the source) are modelled as
abstract natural numbers with decidable equality; badge identifiers are the
literal strings the source pushes.  JavaScript numbers holding point totals
are modelled as naturals (the schema requires non-negative integers);
geographic coordinates and distances are modelled as real numbers.
-/

namespace GeoHunt

/-- Treasure category, the closed enum of `TreasureSchema.category`
(`enum: ['academic', 'social', 'sports', 'history']`). -/
inductive Category where
  | academic
  | social
  | sports
  | history
deriving DecidableEq, Repr

/-- Catalog entry, from `src/backend/src/models/Treasure.js`.  Cosmetic
fields unused by the unlock/badge logic (name, description, clue,
coordinates, trivia) are omitted; `id` stands for the Mongo `_id`. -/
structure Treasure where
  id : Nat
  points : Nat
  category : Category
deriving DecidableEq, Repr

/-- Per-player progress record, from the `UserProgressSchema` of
`src/backend/src/models/UserProgress.js` (the owning `user` reference and
the `updatedAt` timestamp are omitted: the engine never branches on them). -/
structure UserProgress where
  unlockedTreasures : List Nat
  totalPoints : Nat
  badges : List String
  level : Nat
  missionBriefing : Option String
deriving DecidableEq, Repr

/-- The record `getProgress`/`unlockTreasure` auto-create when a player has
no progress document yet: empty unlocks, zero points, no badges, level 1. -/
def initialProgress : UserProgress :=
  { unlockedTreasures := []
    totalPoints := 0
    badges := []
    level := 1
    missionBriefing := none }

/-- `Treasure.findById(id)`: resolve a treasure id against the catalog
(Mongo `_id`s are unique; `find?` returns the first — hence only — match). -/
def findById (catalog : List Treasure) (tid : Nat) : Option Treasure :=
  catalog.find? (fun t => t.id == tid)

/-- `UserProgressSchema.methods.calculateLevel`:
`this.level = Math.floor(this.totalPoints / 200) + 1` (Nat division is
floor division). -/
def calculateLevel (p : UserProgress) : UserProgress :=
  { p with level := p.totalPoints / 200 + 1 }

/-- One `if (cond && !this.badges.includes(b)) this.badges.push(b)` step of
`checkBadges`. -/
def pushIf (cond : Bool) (b : String) (l : List String) : List String :=
  if cond && !(l.contains b) then l ++ [b] else l

/-- `UserProgressSchema.methods.checkBadges`: sequentially award
`'explorer'`, `'scholar'`, `'socialite'`, `'master'` according to the
player's unlocked set and the full catalog, never pushing a badge already
held.  The per-category `Treasure.find` queries become filters of the
catalog and the bare `Treasure.find()` the whole catalog. -/
def checkBadges (catalog : List Treasure) (p : UserProgress) : UserProgress :=
  let unlockedIds := p.unlockedTreasures
  let academicTreasures := catalog.filter (fun t => t.category == Category.academic)
  let hasAllAcademic := academicTreasures.all (fun t => unlockedIds.contains t.id)
  let socialTreasures := catalog.filter (fun t => t.category == Category.social)
  let hasSocial := socialTreasures.any (fun t => unlockedIds.contains t.id)
  let b1 := pushIf (decide (1 ≤ unlockedIds.length)) "explorer" p.badges
  let b2 := pushIf (hasAllAcademic && decide (0 < academicTreasures.length)) "scholar" b1
  let b3 := pushIf hasSocial "socialite" b2
  let b4 := pushIf (decide (unlockedIds.length = catalog.length) && decide (0 < catalog.length)) "master" b3
  { p with badges := b4 }

/-- Outcome of one unlock request, mirroring the controller's three exits:
HTTP 404 `'Treasure not found'`, HTTP 400 `'Treasure already unlocked'`, and
the HTTP 200 success response. -/
inductive UnlockResult where
  | success
  | notFound
  | alreadyUnlocked
deriving DecidableEq, Repr

/-- The award step of `unlockTreasure` (controller lines 82–87): push the
treasure id, add its points, recalculate level, re-check badges. -/
def applyUnlock (catalog : List Treasure) (t : Treasure) (p : UserProgress) : UserProgress :=
  checkBadges catalog
    (calculateLevel
      { p with
        unlockedTreasures := p.unlockedTreasures ++ [t.id]
        totalPoints := p.totalPoints + t.points })

/-- The body of one `unlockTreasure` request run against a snapshot of the
player's progress (the document `findOne` returned, or the auto-created
fresh one).  Returns the document written by `save()` (`none` when the
request exits without saving) and the outcome. -/
def unlockOn (catalog : List Treasure) (snapshot : UserProgress) (tid : Nat) :
    Option UserProgress × UnlockResult :=
  match findById catalog tid with
  | none => (none, UnlockResult.notFound)
  | some t =>
    if t.id ∈ snapshot.unlockedTreasures then (none, UnlockResult.alreadyUnlocked)
    else (some (applyUnlock catalog t snapshot), UnlockResult.success)

/-- `exports.unlockTreasure`: the stored progress (if any) is read, the
request body runs on that snapshot, and the store holds whatever was saved
(on the no-save exits the store is unchanged; the auto-created record is
only reachable on the success path, where it is saved updated). -/
def unlockTreasure (catalog : List Treasure) (stored : Option UserProgress) (tid : Nat) :
    Option UserProgress × UnlockResult :=
  let res := unlockOn catalog (stored.getD initialProgress) tid
  (match res.1 with
   | some p => some p
   | none => stored, res.2)

/-- `exports.getProgress`: return the stored record, auto-creating (and
persisting) the initial one on first access.  First component: the store
after the call; second: the record returned to the caller. -/
def getProgress (stored : Option UserProgress) : Option UserProgress × UserProgress :=
  match stored with
  | none => (some initialProgress, initialProgress)
  | some p => (some p, p)

/-- Outcome of the admin reset endpoint. -/
inductive ResetResult where
  | ok
  | notFound
deriving DecidableEq, Repr

/-- `exports.resetUserProgress` (admin controller): `findOneAndUpdate` with
no upsert — `none` stays `none` and yields the 404 `'User progress not
found'`; an existing record is overwritten with empty unlocks, zero points,
no badges, level 1 and a cleared briefing. -/
def resetUserProgress (stored : Option UserProgress) : Option UserProgress × ResetResult :=
  match stored with
  | none => (none, ResetResult.notFound)
  | some p =>
    (some { p with
              unlockedTreasures := []
              totalPoints := 0
              badges := []
              level := 1
              missionBriefing := none },
     ResetResult.ok)

/-- Sum of the catalog point values of a list of treasure ids (an id absent
from the catalog contributes 0).  Used to state the points invariant. -/
def sumPoints (catalog : List Treasure) (ids : List Nat) : Nat :=
  (ids.map (fun i =>
    match findById catalog i with
    | some t => t.points
    | none => 0)).sum

/-! ## Frontend: QR scan classification (`scanQRCode`) -/

/-- Three-way classification of a scanned payload, mirroring the branches
of `scanQRCode`: accept (`setSuccess(true)`), wrong marker
(`setWrongCode(true)`), not a game code (`'Not a GeoHunt QR code'`). -/
inductive ScanResult where
  | Match
  | Mismatch
  | Malformed
deriving DecidableEq, Repr

/-- The game's QR namespace tag, the literal `'geohunt:'` of
`code.data.startsWith('geohunt:')`.  Strings are modelled as character
lists. -/
def geohuntScheme : List Char := "geohunt:".toList

/-- The validation branch of `scanQRCode`: `startsWith('geohunt:')`, then
`replace('geohunt:', '')` — which, on a string that starts with the tag,
drops exactly that leading tag — compared against the selected treasure's
id. -/
def classifyScan (payload target : List Char) : ScanResult :=
  if geohuntScheme.isPrefixOf payload then
    if payload.drop geohuntScheme.length = target then ScanResult.Match
    else ScanResult.Mismatch
  else ScanResult.Malformed

/-! ## Frontend: XP status bar -/

/-- `const xpProgress = ((userProgress?.totalPoints || 0) % 250) / 2.5;` —
the width (in percent) of the XP bar fill.  JavaScript number division is
modelled over ℚ. -/
def xpProgress (totalPoints : Nat) : ℚ :=
  ((totalPoints % 250 : Nat) : ℚ) / (2.5 : ℚ)

/-- The `totalPoints % 250` out-of-250 XP text next to the level badge. -/
def xpDisplay (totalPoints : Nat) : Nat :=
  totalPoints % 250

/-! ## Frontend: geoproximity (`calculateDistance`, `getDistanceTo`, `isNear`)

Coordinates and distances are real numbers; `Math.atan2` is embedded as the
usual piecewise real arctangent (signed zeros aside, which reals do not
have). -/

/-- `Math.atan2 y x`, over ℝ. -/
noncomputable def atan2 (y x : ℝ) : ℝ :=
  if 0 < x then Real.arctan (y / x)
  else if x < 0 then
    (if 0 ≤ y then Real.arctan (y / x) + Real.pi
     else Real.arctan (y / x) - Real.pi)
  else
    (if 0 < y then Real.pi / 2
     else if y < 0 then -(Real.pi / 2)
     else 0)

/-- The local `a` of the haversine computation, shared verbatim by the two
frontend copies of `calculateDistance`:
`sin(Δφ/2)² + cos φ1 · cos φ2 · sin(Δλ/2)²` with angles in radians. -/
noncomputable def haversineA (lat1 lon1 lat2 lon2 : ℝ) : ℝ :=
  let phi1 := lat1 * Real.pi / 180
  let phi2 := lat2 * Real.pi / 180
  let dphi := (lat2 - lat1) * Real.pi / 180
  let dlam := (lon2 - lon1) * Real.pi / 180
  Real.sin (dphi / 2) * Real.sin (dphi / 2) +
    Real.cos phi1 * Real.cos phi2 * (Real.sin (dlam / 2) * Real.sin (dlam / 2))

/-- The map screen's `calculateDistance` (`R * 2 * Math.atan2(Math.sqrt(a),
Math.sqrt(1 - a))` with `R = 6371e3`), distance in meters. -/
noncomputable def calculateDistance (lat1 lon1 lat2 lon2 : ℝ) : ℝ :=
  6371000 * 2 * atan2 (Real.sqrt (haversineA lat1 lon1 lat2 lon2))
    (Real.sqrt (1 - haversineA lat1 lon1 lat2 lon2))

/-- The second copy of the haversine in the map-view component, which binds
`c = 2 * Math.atan2(...)` and returns `R * c`. -/
noncomputable def calculateDistanceMap (lat1 lon1 lat2 lon2 : ℝ) : ℝ :=
  let c := 2 * atan2 (Real.sqrt (haversineA lat1 lon1 lat2 lon2))
    (Real.sqrt (1 - haversineA lat1 lon1 lat2 lon2))
  6371000 * c

/-- A geographic position (decimal degrees), the coordinate pair carried by
both the geolocation fix and a treasure. -/
structure GeoPoint where
  latitude : ℝ
  longitude : ℝ

/-- `getDistanceTo`: `if (!userLocation) return Infinity;` then the
haversine distance.  A JavaScript number that may be `Infinity` is modelled
as `WithTop ℝ`, with `⊤` the infinite sentinel. -/
noncomputable def getDistanceTo (userLocation : Option GeoPoint) (t : GeoPoint) : WithTop ℝ :=
  match userLocation with
  | none => ⊤
  | some u =>
    ((calculateDistance u.latitude u.longitude t.latitude t.longitude : ℝ) : WithTop ℝ)

/-- The strict 50-meter comparison `d < 50` applied by `isNear` to a
computed distance. -/
def withinRange (d : WithTop ℝ) : Prop :=
  d < ((50 : ℝ) : WithTop ℝ)

/-- `isNear`: `getDistanceTo(treasure) < 50`. -/
noncomputable def isNear (userLocation : Option GeoPoint) (t : GeoPoint) : Prop :=
  getDistanceTo userLocation t < ((50 : ℝ) : WithTop ℝ)

/-! ## Concurrency model for the unlock controller

`unlockTreasure` is `await findOne` … JavaScript code … `await save()`:
nothing in the controller (no transaction, no lock, no compare-and-swap)
prevents a second request from reading the store between another request's
read and write.  The interleaving below runs two requests for the same
player that both read the store first, then write in turn — a schedule the
source admits. -/

/-- Two unlock requests for the same (player, treasure) under the
read–read–write–write interleaving: both snapshots come from the initial
store, each body runs on its own snapshot, and the writes land in order.
Returns (outcome of request A, outcome of request B, final store). -/
def unlockRace (catalog : List Treasure) (s0 : Option UserProgress) (tid : Nat) :
    UnlockResult × UnlockResult × Option UserProgress :=
  let snapA := s0.getD initialProgress
  let snapB := s0.getD initialProgress
  let resA := unlockOn catalog snapA tid
  let resB := unlockOn catalog snapB tid
  let store1 := match resA.1 with
    | some p => some p
    | none => s0
  let store2 := match resB.1 with
    | some p => some p
    | none => store1
  (resA.2, resB.2, store2)

/-! ## Theorems -/

/-- C6: for every non-negative integer `totalPoints`, the level calculation
returns `floor(totalPoints / 200) + 1`; it is a total pure function,
monotonically non-decreasing in `totalPoints`, its result is always at
least 1, and there is no upper cap. -/
theorem calculateLevel_spec :
    (∀ p : UserProgress, (calculateLevel p).level = p.totalPoints / 200 + 1)
    ∧ (∀ p q : UserProgress, p.totalPoints ≤ q.totalPoints →
        (calculateLevel p).level ≤ (calculateLevel q).level)
    ∧ (∀ p : UserProgress, 1 ≤ (calculateLevel p).level)
    ∧ (∀ n : Nat, ∃ p : UserProgress, n ≤ (calculateLevel p).level) := by
  refine ⟨fun p => rfl, fun p q h => ?_, fun p => ?_, fun n => ?_⟩
  · simpa [calculateLevel] using Nat.add_le_add_right (Nat.div_le_div_right h) 1
  · simp [calculateLevel]
  · refine ⟨{ initialProgress with totalPoints := 200 * n }, ?_⟩
    simp [calculateLevel, initialProgress, Nat.mul_div_cancel_left n (by norm_num : 0 < 200)]

/-- Witness for `calculateLevel_spec`: monotonicity at 150 ≤ 400 points. -/
theorem calculateLevel_spec_witness :
    (calculateLevel { initialProgress with totalPoints := 150 }).level ≤
      (calculateLevel { initialProgress with totalPoints := 400 }).level :=
  calculateLevel_spec.2.1 _ _ (by decide)

/-- C9: `resetUserProgress` on a player with no progress record fails with
NotFound and creates nothing, unlike `getProgress`, which lazily creates
the initial record; on an existing record it clears unlocks, points and
badges, resets the level to 1 and clears the mission briefing. -/
theorem resetUserProgress_spec :
    resetUserProgress none = (none, ResetResult.notFound)
    ∧ (∀ p : UserProgress,
        resetUserProgress (some p) = (some initialProgress, ResetResult.ok))
    ∧ getProgress none = (some initialProgress, initialProgress) :=
  ⟨rfl, fun _ => rfl, rfl⟩

/-- C10: the status bar computes the XP display as `totalPoints % 250` out
of 250 and the bar fill as `(totalPoints % 250) / 2.5` percent — a
250-point cycle, not the 200-point-per-level constant: at the 200-point
level-up boundary the bar shows 80%, not 0%. -/
theorem xpProgress_spec :
    (∀ tp : Nat, xpProgress tp * (2.5 : ℚ) = ((tp % 250 : Nat) : ℚ))
    ∧ (∀ tp : Nat, xpProgress (tp + 250) = xpProgress tp)
    ∧ (∀ tp : Nat, xpDisplay tp = tp % 250)
    ∧ xpProgress 200 = 80
    ∧ xpProgress 250 = 0
    ∧ (calculateLevel { initialProgress with totalPoints := 200 }).level = 2 := by
  refine ⟨fun tp => ?_, fun tp => ?_, fun tp => rfl, ?_, ?_, rfl⟩
  · rw [xpProgress, div_mul_cancel₀]
    norm_num
  · simp [xpProgress, Nat.add_mod_right]
  · norm_num [xpProgress]
  · norm_num [xpProgress]

/-- C3: the QR validator classifies a payload as Match iff it is literally
`"geohunt:"` followed by exactly the target id, as Mismatch iff it starts
with `"geohunt:"` but the remainder differs from the target, and as
Malformed iff it does not start with `"geohunt:"`. -/
theorem classifyScan_spec (payload target : List Char) :
    (classifyScan payload target = ScanResult.Match ↔
      payload = geohuntScheme ++ target)
    ∧ (classifyScan payload target = ScanResult.Mismatch ↔
      geohuntScheme <+: payload ∧ payload ≠ geohuntScheme ++ target)
    ∧ (classifyScan payload target = ScanResult.Malformed ↔
      ¬ geohuntScheme <+: payload) := by
  by_cases hp : geohuntScheme <+: payload
  · have hb : geohuntScheme.isPrefixOf payload = true :=
      List.isPrefixOf_iff_prefix.mpr hp
    obtain ⟨rest, hrest⟩ := hp
    subst hrest
    have hdrop : (geohuntScheme ++ rest).drop geohuntScheme.length = rest :=
      List.drop_left _ _
    by_cases ht : rest = target
    · subst ht
      simp [classifyScan, hb, hdrop, List.prefix_append]
    · have hne : geohuntScheme ++ rest ≠ geohuntScheme ++ target := by
        intro h
        exact ht (List.append_cancel_left h)
      simp [classifyScan, hb, hdrop, ht, hne, List.prefix_append]
  · have hb : geohuntScheme.isPrefixOf payload = false := by
      rw [Bool.eq_false_iff]
      intro h
      exact hp (List.isPrefixOf_iff_prefix.mp h)
    have hne : payload ≠ geohuntScheme ++ target := by
      intro h
      exact hp (h ▸ List.prefix_append _ _)
    simp [classifyScan, hb, hp, hne]

/-! ### Unlock engine lemmas -/

/-- `checkBadges` touches only the `badges` field. -/
theorem checkBadges_unlockedTreasures (catalog : List Treasure) (p : UserProgress) :
    (checkBadges catalog p).unlockedTreasures = p.unlockedTreasures := rfl

theorem checkBadges_totalPoints (catalog : List Treasure) (p : UserProgress) :
    (checkBadges catalog p).totalPoints = p.totalPoints := rfl

theorem checkBadges_level (catalog : List Treasure) (p : UserProgress) :
    (checkBadges catalog p).level = p.level := rfl

/-- The award step: fields of the record after `applyUnlock`. -/
theorem applyUnlock_unlockedTreasures (catalog : List Treasure) (t : Treasure)
    (p : UserProgress) :
    (applyUnlock catalog t p).unlockedTreasures = p.unlockedTreasures ++ [t.id] := rfl

theorem applyUnlock_totalPoints (catalog : List Treasure) (t : Treasure)
    (p : UserProgress) :
    (applyUnlock catalog t p).totalPoints = p.totalPoints + t.points := rfl

theorem applyUnlock_level (catalog : List Treasure) (t : Treasure) (p : UserProgress) :
    (applyUnlock catalog t p).level = (p.totalPoints + t.points) / 200 + 1 := rfl

/-- A treasure found by id has that id. -/
theorem findById_id {catalog : List Treasure} {tid : Nat} {t : Treasure}
    (h : findById catalog tid = some t) : t.id = tid := by
  simpa using List.find?_some h

/-- Appending one resolvable id adds exactly its point value to the sum. -/
theorem sumPoints_append_found {catalog : List Treasure} {tid : Nat} {t : Treasure}
    (h : findById catalog tid = some t) (ids : List Nat) :
    sumPoints catalog (ids ++ [tid]) = sumPoints catalog ids + t.points := by
  unfold sumPoints
  rw [List.map_append, List.sum_append]
  simp [h]

/-- C1: a successful unlock of a catalog treasure not yet unlocked appends
the treasure id, adds exactly its point value, and recomputes the level, so
that the points invariant and the level formula hold afterwards. -/
theorem unlockTreasure_success (catalog : List Treasure) (p : UserProgress)
    (tid : Nat) (t : Treasure)
    (hfind : findById catalog tid = some t)
    (hnew : tid ∉ p.unlockedTreasures)
    (hinv : p.totalPoints = sumPoints catalog p.unlockedTreasures) :
    ∃ p', unlockTreasure catalog (some p) tid = (some p', UnlockResult.success)
      ∧ p'.unlockedTreasures = p.unlockedTreasures ++ [tid]
      ∧ p'.totalPoints = p.totalPoints + t.points
      ∧ p'.totalPoints = sumPoints catalog p'.unlockedTreasures
      ∧ p'.level = p'.totalPoints / 200 + 1 := by
  have hid : t.id = tid := findById_id hfind
  refine ⟨applyUnlock catalog t p, ?_, ?_, ?_, ?_, ?_⟩
  · unfold unlockTreasure unlockOn
    rw [hfind]
    simp [hid, hnew]
  · rw [applyUnlock_unlockedTreasures, hid]
  · exact applyUnlock_totalPoints catalog t p
  · rw [applyUnlock_totalPoints, applyUnlock_unlockedTreasures, hid,
      sumPoints_append_found hfind, hinv]
  · rw [applyUnlock_level, applyUnlock_totalPoints]

/-- Witness for `unlockTreasure_success`: unlocking treasure 1 (100 points)
from a fresh record. -/
theorem unlockTreasure_success_witness :
    ∃ p', unlockTreasure [⟨1, 100, Category.academic⟩] (some initialProgress) 1
        = (some p', UnlockResult.success)
      ∧ p'.unlockedTreasures = initialProgress.unlockedTreasures ++ [1]
      ∧ p'.totalPoints = initialProgress.totalPoints + 100
      ∧ p'.totalPoints = sumPoints [⟨1, 100, Category.academic⟩] p'.unlockedTreasures
      ∧ p'.level = p'.totalPoints / 200 + 1 :=
  unlockTreasure_success [⟨1, 100, Category.academic⟩] initialProgress 1
    ⟨1, 100, Category.academic⟩ (by decide) (by decide) (by decide)

/-- C2: a second unlock of a treasure already in the player's unlocked set
fails with AlreadyUnlocked and leaves the stored record entirely unchanged. -/
theorem unlockTreasure_alreadyUnlocked (catalog : List Treasure) (p : UserProgress)
    (tid : Nat) (t : Treasure)
    (hfind : findById catalog tid = some t)
    (hmem : tid ∈ p.unlockedTreasures) :
    unlockTreasure catalog (some p) tid = (some p, UnlockResult.alreadyUnlocked) := by
  have hid : t.id = tid := findById_id hfind
  unfold unlockTreasure unlockOn
  rw [hfind]
  simp [hid, hmem]

/-- Witness for `unlockTreasure_alreadyUnlocked`: re-unlocking treasure 1
leaves the record with its 100 points and single unlock untouched. -/
theorem unlockTreasure_alreadyUnlocked_witness :
    unlockTreasure [⟨1, 100, Category.academic⟩]
      (some { initialProgress with unlockedTreasures := [1], totalPoints := 100 }) 1
    = (some { initialProgress with unlockedTreasures := [1], totalPoints := 100 },
       UnlockResult.alreadyUnlocked) :=
  unlockTreasure_alreadyUnlocked [⟨1, 100, Category.academic⟩]
    { initialProgress with unlockedTreasures := [1], totalPoints := 100 } 1
    ⟨1, 100, Category.academic⟩ (by decide) (by decide)

/-! ### Badge evaluation -/

/-- Membership after one conditional badge push. -/
theorem mem_pushIf {x b : String} {c : Bool} {l : List String} :
    x ∈ pushIf c b l ↔ x ∈ l ∨ (x = b ∧ c = true) := by
  unfold pushIf
  by_cases hc : c = true
  · subst hc
    by_cases hm : b ∈ l
    · have hcond : (true && !(l.contains b)) = false := by
        simp [List.contains, hm]
      rw [hcond]
      simp only [Bool.false_eq_true, if_false, and_true]
      constructor
      · exact Or.inl
      · rintro (h | rfl)
        · exact h
        · exact hm
    · have hcond : (true && !(l.contains b)) = true := by
        simp [List.contains, hm]
      rw [hcond]
      simp [List.mem_append]
  · have hcf : c = false := by
      revert hc
      cases c <;> simp
    subst hcf
    have hcond : (false && !(l.contains b)) = false := rfl
    rw [hcond]
    simp

/-- A filtered catalog is non-empty iff some member satisfies the filter. -/
theorem filter_ne_nil_iff_exists (f : Treasure → Bool) (l : List Treasure) :
    ¬ (l.filter f = []) ↔ ∃ t ∈ l, f t = true := by
  constructor
  · intro h
    rcases List.exists_mem_of_ne_nil _ h with ⟨t, ht⟩
    rw [List.mem_filter] at ht
    exact ⟨t, ht.1, ht.2⟩
  · rintro ⟨t, ht, hf⟩ hnil
    have : t ∈ l.filter f := List.mem_filter.mpr ⟨ht, hf⟩
    rw [hnil] at this
    exact absurd this (List.not_mem_nil t)

/-- C4 counterexample: with one academic treasure unlocked out of a
one-treasure catalog, the badge run does not award any badge named
`first-find` even though at least one treasure is unlocked (the code's
identifier is `explorer`). -/
theorem checkBadges_no_first_find :
    "first-find" ∉ (checkBadges [⟨1, 100, Category.academic⟩]
        { initialProgress with unlockedTreasures := [1], totalPoints := 100 }).badges
    ∧ 1 ≤ ({ initialProgress with unlockedTreasures := [1], totalPoints := 100 }
        : UserProgress).unlockedTreasures.length := by
  decide

/-- C4 (amended): the badge run awards exactly `explorer` (first find),
`scholar` (all academic treasures unlocked, at least one existing),
`socialite` (some social treasure unlocked) and `master` (unlocked count
equals the size of a non-empty catalog), each unioned with the badges
already earned, and never removes a previously earned badge. -/
theorem checkBadges_spec (catalog : List Treasure) (p : UserProgress) (b : String) :
    b ∈ (checkBadges catalog p).badges ↔
      b ∈ p.badges
      ∨ (b = "explorer" ∧ p.unlockedTreasures ≠ [])
      ∨ (b = "scholar"
          ∧ (∀ t ∈ catalog, t.category = Category.academic → t.id ∈ p.unlockedTreasures)
          ∧ (∃ t ∈ catalog, t.category = Category.academic))
      ∨ (b = "socialite"
          ∧ (∃ t ∈ catalog, t.category = Category.social ∧ t.id ∈ p.unlockedTreasures))
      ∨ (b = "master" ∧ p.unlockedTreasures.length = catalog.length ∧ catalog ≠ []) := by
  simp only [checkBadges, mem_pushIf, Bool.and_eq_true, decide_eq_true_eq,
    List.all_eq_true, List.any_eq_true, List.mem_filter, List.contains,
    List.elem_eq_mem, beq_iff_eq, Nat.one_le_iff_ne_zero, List.length_pos,
    ne_eq, List.length_eq_zero, and_imp, and_assoc, filter_ne_nil_iff_exists]
  itauto

/-! ### Unlock race -/

/-- C5 evaluation: under the read–read–write–write interleaving the
controller admits (no lock or transaction between `findOne` and `save`),
two concurrent unlock requests for the same (player, treasure) pair BOTH
return the success outcome — the claimed one-Awarded/one-AlreadyUnlocked
serialization does not hold — whereas the same two requests run
sequentially give success then AlreadyUnlocked. -/
theorem unlockRace_double_award :
    (unlockRace [⟨1, 100, Category.academic⟩] (some initialProgress) 1).1
        = UnlockResult.success
    ∧ (unlockRace [⟨1, 100, Category.academic⟩] (some initialProgress) 1).2.1
        = UnlockResult.success
    ∧ (unlockTreasure [⟨1, 100, Category.academic⟩]
        (unlockTreasure [⟨1, 100, Category.academic⟩] (some initialProgress) 1).1
        1).2 = UnlockResult.alreadyUnlocked := by
  decide

/-! ### Geoproximity -/

/-- `Math.atan2 0 1 = 0`. -/
theorem atan2_zero_one : atan2 0 1 = 0 := by
  unfold atan2
  rw [if_pos one_pos]
  norm_num [Real.arctan_zero]

/-- `Math.atan2 y x` is non-negative whenever `y` is (upper half plane). -/
theorem atan2_nonneg {y x : ℝ} (hy : 0 ≤ y) : 0 ≤ atan2 y x := by
  unfold atan2
  split_ifs with h1 h2 h3 h4
  · have := Real.arctan_strictMono.monotone (div_nonneg hy h1.le)
    simpa [Real.arctan_zero] using this
  · have := Real.neg_pi_div_two_lt_arctan (y / x)
    have hpi := Real.pi_gt_three
    linarith
  · positivity
  · exact absurd hy (not_le.mpr h4)
  · exact le_refl 0

/-- The haversine `a` term is symmetric in its two coordinate pairs. -/
theorem haversineA_comm (lat1 lon1 lat2 lon2 : ℝ) :
    haversineA lat1 lon1 lat2 lon2 = haversineA lat2 lon2 lat1 lon1 := by
  simp only [haversineA]
  have h1 : (lat1 - lat2) * Real.pi / 180 / 2 = -((lat2 - lat1) * Real.pi / 180 / 2) := by
    ring
  have h2 : (lon1 - lon2) * Real.pi / 180 / 2 = -((lon2 - lon1) * Real.pi / 180 / 2) := by
    ring
  rw [h1, h2, Real.sin_neg, Real.sin_neg]
  ring

/-- C8: the haversine distance is 0 from any point to itself, symmetric in
its two arguments, and non-negative; the map view's second copy computes
the same value. -/
theorem calculateDistance_spec :
    (∀ lat lon : ℝ, calculateDistance lat lon lat lon = 0)
    ∧ (∀ lat1 lon1 lat2 lon2 : ℝ,
        calculateDistance lat1 lon1 lat2 lon2 = calculateDistance lat2 lon2 lat1 lon1)
    ∧ (∀ lat1 lon1 lat2 lon2 : ℝ, 0 ≤ calculateDistance lat1 lon1 lat2 lon2)
    ∧ (∀ lat1 lon1 lat2 lon2 : ℝ,
        calculateDistanceMap lat1 lon1 lat2 lon2 = calculateDistance lat1 lon1 lat2 lon2) := by
  refine ⟨fun lat lon => ?_, fun lat1 lon1 lat2 lon2 => ?_,
    fun lat1 lon1 lat2 lon2 => ?_, fun lat1 lon1 lat2 lon2 => ?_⟩
  · have ha : haversineA lat lon lat lon = 0 := by
      simp [haversineA]
    unfold calculateDistance
    rw [ha]
    norm_num [Real.sqrt_zero, Real.sqrt_one, atan2_zero_one]
  · unfold calculateDistance
    rw [haversineA_comm]
  · unfold calculateDistance
    have := atan2_nonneg (x := Real.sqrt (1 - haversineA lat1 lon1 lat2 lon2))
      (Real.sqrt_nonneg (haversineA lat1 lon1 lat2 lon2))
    positivity
  · unfold calculateDistance calculateDistanceMap
    ring

/-- C7: the proximity gate holds iff the computed distance is strictly
below 50 meters; the comparison rejects a distance of exactly 50 and
accepts 49.999; a missing current position yields the infinite sentinel
and is never near. -/
theorem isNear_spec :
    (∀ (u t : GeoPoint), isNear (some u) t ↔
        calculateDistance u.latitude u.longitude t.latitude t.longitude < 50)
    ∧ (∀ t : GeoPoint, ¬ isNear none t)
    ∧ (∀ t : GeoPoint, getDistanceTo none t = ⊤)
    ∧ (∀ (u : Option GeoPoint) (t : GeoPoint),
        isNear u t ↔ withinRange (getDistanceTo u t))
    ∧ ¬ withinRange ((50 : ℝ) : WithTop ℝ)
    ∧ withinRange ((49.999 : ℝ) : WithTop ℝ) := by
  refine ⟨fun u t => ?_, fun t => ?_, fun t => rfl, fun u t => Iff.rfl, ?_, ?_⟩
  · unfold isNear getDistanceTo
    exact WithTop.coe_lt_coe
  · unfold isNear getDistanceTo
    exact WithTop.not_top_lt _
  · unfold withinRange
    exact lt_irrefl _
  · unfold withinRange
    exact WithTop.coe_lt_coe.mpr (by norm_num)

end GeoHunt
